import Mathlib

/-!
Shallow embedding of the HRMS Lite backend (src/backend/main.py together
with src/backend/models.py) over an in-memory document store.

The document store (MongoDB accessed through motor) is modelled as two
lists, one per collection, in insertion ("natural") order:
  - find_one(filter)        = List.find? (first match)
  - insert_one(doc)         = append at the end
  - delete_one(filter)      = List.eraseP (remove first match)
  - delete_many(filter)     = List.filter (keep non-matches)
  - find(filter).sort(k,-1) = filter, then insertionSort descending on k
Store-generated ObjectIds and wall-clock timestamps are nondeterministic
inputs of the environment, so the mutating handlers take them as explicit
parameters (freshId, now).  ObjectId validity (bson.ObjectId.is_valid on a
string) is a 24 hex character check; identifiers are kept as opaque strings
matched by equality, as the spec treats them ("opaque generated
identifiers").  Timestamps are opaque Nat values.
-/

namespace HRMS

/-- Identifier wellformedness check: bson ObjectId.is_valid accepts exactly
the 24-character hexadecimal strings (main.py uses it in get_employee,
delete_employee, mark_attendance, get_employee_attendance). -/
def isHexChar (c : Char) : Bool :=
  c.isDigit || (Char.ofNat 97 ≤ c && c ≤ Char.ofNat 102) ||
    (Char.ofNat 65 ≤ c && c ≤ Char.ofNat 70)

/-- Wellformed (valid) ObjectId string: 24 hex characters. -/
def isValidOid (s : String) : Bool :=
  s.data.length == 24 && s.data.all isHexChar

/-- Employee document as stored in the employees collection
(main.py add_employee, lines 115-121): the store-generated _id plus the
four input fields and the created_at timestamp. -/
structure Employee where
  oid : String
  employee_id : String
  full_name : String
  email : String
  department : String
  created_at : Nat
deriving DecidableEq, Repr

/-- Attendance document as stored in the attendances collection
(main.py mark_attendance, lines 265-270): the store-generated _id, the
referenced employee identifier exactly as supplied in the request, the
normalized ISO date string, the status string, and the marked_at
timestamp. -/
structure AttRecord where
  oid : String
  employee_id : String
  date : String
  status : String
  marked_at : Nat
deriving DecidableEq, Repr

/-- The document store: the employees and attendances collections, each in
insertion order. -/
structure Store where
  employees : List Employee
  attendances : List AttRecord
deriving DecidableEq, Repr

/-- The empty store. -/
def emptyStore : Store := ⟨[], []⟩

/-- Request body of POST /api/employees (models.py EmployeeCreate). -/
structure EmployeeCreate where
  employee_id : String
  full_name : String
  email : String
  department : String
deriving DecidableEq, Repr

/-- Calendar date as parsed by pydantic for the attendance request body
(models.py AttendanceBase, field date of python type datetime.date). -/
structure Date where
  year : Nat
  month : Nat
  day : Nat
deriving DecidableEq, Repr

/-- Request body of POST /api/attendance (models.py AttendanceCreate).
The pydantic v2 pattern constraint on status (Present or Absent only,
models.py line 64) is enforced while the body is parsed, before the
handler runs; it is modelled by statusPatternOk, applied in
markAttendanceEndpoint.  The fields here are the parsed body an accepted
request carries into the handler. -/
structure AttendanceCreate where
  employee_id : String
  date : Date
  status : String
deriving DecidableEq, Repr

/-- Decimal rendering of a Nat left-padded with zeros to width w, as
python strftime does for date components. -/
def padNum (w n : Nat) : String :=
  let s := toString n
  String.mk (List.replicate (w - s.length) (Char.ofNat 48)) ++ s

/-- Normalization of a date to its canonical ISO string, modelling
date.strftime of the format string Y-m-d in main.py line 252. -/
def Date.toIso (d : Date) : String :=
  padNum 4 d.year ++ "-" ++ padNum 2 d.month ++ "-" ++ padNum 2 d.day

/-- Number of days in a month of the proleptic Gregorian calendar, used
only to state that a request date is a real calendar date (pydantic
rejects anything else before the handler runs). -/
def daysInMonth (y m : Nat) : Nat :=
  if m == 2 then
    (if (y % 4 == 0 && !(y % 100 == 0)) || y % 400 == 0 then 29 else 28)
  else if m == 4 || m == 6 || m == 9 || m == 11 then 30
  else 31

/-- Valid calendar date in the range python datetime.date supports. -/
def Date.valid (d : Date) : Bool :=
  1 ≤ d.year && d.year ≤ 9999 && 1 ≤ d.month && d.month ≤ 12 &&
    1 ≤ d.day && d.day ≤ daysInMonth d.year d.month

/-- Abstract model of the pydantic EmailStr constraint from models.py
(the actual validator lives in the external email-validator package):
exactly one at-sign, neither at the first nor the last position.  It is
used only as a hypothesis-side gate, never inside a handler, since
main.py itself performs no email-shape check. -/
def validEmail (s : String) : Bool :=
  s.data.count (Char.ofNat 64) == 1 &&
    !(s.data.head? == some (Char.ofNat 64)) &&
    !(s.data.getLast? == some (Char.ofNat 64))

/-- Field constraints of models.py EmployeeBase, enforced by pydantic
before add_employee runs: employee_id 3-20 chars, full_name 2-100 chars,
email wellformed, department 2-50 chars. -/
def EmployeeCreate.valid (e : EmployeeCreate) : Bool :=
  3 ≤ e.employee_id.length && e.employee_id.length ≤ 20 &&
    2 ≤ e.full_name.length && e.full_name.length ≤ 100 &&
    validEmail e.email &&
    2 ≤ e.department.length && e.department.length ≤ 50

/-- Domain errors raised by the handlers of main.py, each carrying the
data its detail message interpolates. -/
inductive ApiError where
  | invalidId
  | notFound (id : String)
  | duplicateEmployeeId (v : String)
  | duplicateEmail (v : String)
  | invalidStatus
  | duplicateAttendance (name : String) (date : String)
  | internal
deriving DecidableEq, Repr

/-- HTTP status code each handler attaches to the error it raises
(main.py: HTTP_400_BAD_REQUEST, HTTP_404_NOT_FOUND,
HTTP_500_INTERNAL_SERVER_ERROR). -/
def ApiError.httpStatus : ApiError → Nat
  | .notFound _ => 404
  | .internal => 500
  | _ => 400

/-- Single-quote character, used in the detail messages of main.py. -/
def sq : String := String.singleton (Char.ofNat 39)

/-- Double-quote character, used in the invalid-status detail message. -/
def dq : String := String.singleton (Char.ofNat 34)

/-- Prefix of the duplicate-employee_id detail message (main.py line 103). -/
def dupIdPre : String := "Employee ID " ++ sq

/-- Suffix of the duplicate-employee_id detail message. -/
def dupIdSuf : String := sq ++ " already exists"

/-- Prefix of the duplicate-email detail message (main.py line 111). -/
def dupEmailPre : String := "Email " ++ sq

/-- Suffix of the duplicate-email detail message. -/
def dupEmailSuf : String := sq ++ " is already registered"

/-- Detail message attached to each domain error, exactly the strings of
main.py. -/
def ApiError.detail : ApiError → String
  | .invalidId => "Invalid employee ID format"
  | .notFound id => "Employee with ID " ++ id ++ " not found"
  | .duplicateEmployeeId v => dupIdPre ++ v ++ dupIdSuf
  | .duplicateEmail v => dupEmailPre ++ v ++ dupEmailSuf
  | .invalidStatus =>
      "Status must be either " ++ dq ++ "Present" ++ dq ++ " or " ++
        dq ++ "Absent" ++ dq
  | .duplicateAttendance name date =>
      "Attendance already marked for " ++ name ++ " on " ++ date
  | .internal => "internal error"

/-- Domain errors in the taxonomy of the spec: everything the handlers
raise deliberately, as opposed to the internal (500) catch-all. -/
def ApiError.isDomain : ApiError → Bool
  | .internal => false
  | _ => true

/-- Handler POST /api/employees (main.py add_employee, lines 92-142):
check employee_id uniqueness, then email uniqueness, then insert the new
document with created_at stamped, then re-read it by _id for the
response.  freshId is the ObjectId the store generates for the insert and
now the current timestamp. -/
def addEmployee (s : Store) (freshId : String) (now : Nat)
    (emp : EmployeeCreate) : Store × Except ApiError Employee :=
  match s.employees.find? (fun e => e.employee_id == emp.employee_id) with
  | some _ => (s, .error (.duplicateEmployeeId emp.employee_id))
  | none =>
    match s.employees.find? (fun e => e.email == emp.email) with
    | some _ => (s, .error (.duplicateEmail emp.email))
    | none =>
      let newEmp : Employee :=
        ⟨freshId, emp.employee_id, emp.full_name, emp.email,
          emp.department, now⟩
      let employees2 := s.employees ++ [newEmp]
      let s2 : Store := { s with employees := employees2 }
      match employees2.find? (fun e => e.oid == freshId) with
      | some created => (s2, .ok created)
      | none => (s2, .error .internal)

/-- Handler GET /api/employees/{id} (main.py get_employee, lines
144-179): reject a malformed identifier, then look the employee up by
_id; read-only, so the store is returned unchanged on every path. -/
def getEmployee (s : Store) (id : String) : Store × Except ApiError Employee :=
  if isValidOid id then
    match s.employees.find? (fun e => e.oid == id) with
    | none => (s, .error (.notFound id))
    | some e => (s, .ok e)
  else (s, .error .invalidId)

/-- Success message of delete_employee (main.py line 210), split around
the interpolated display name. -/
def delMsgPre : String := "Employee "

/-- Suffix of the delete_employee success message. -/
def delMsgSuf : String := " deleted successfully"

/-- Handler DELETE /api/employees/{id} (main.py delete_employee, lines
181-219): reject a malformed identifier, look the employee up by _id
(404 when absent), delete_one the employee, then delete_many every
attendance document whose employee_id field equals the requested id
(cascade), and answer with a message naming the deleted employee. -/
def deleteEmployee (s : Store) (id : String) : Store × Except ApiError String :=
  if isValidOid id then
    match s.employees.find? (fun e => e.oid == id) with
    | none => (s, .error (.notFound id))
    | some emp =>
      let s2 : Store :=
        ⟨s.employees.eraseP (fun e => e.oid == id),
          s.attendances.filter (fun a => !(a.employee_id == id))⟩
      (s2, .ok (delMsgPre ++ emp.full_name ++ delMsgSuf))
  else (s, .error .invalidId)

/-- Handler POST /api/attendance (main.py mark_attendance, lines
223-292): reject a malformed employee identifier, look the employee up
(404 when absent), reject a status outside Present/Absent, normalize the
date and reject a duplicate (employee_id, date) pair, then insert the new
document and re-read it by _id for the response. -/
def markAttendance (s : Store) (freshId : String) (now : Nat)
    (att : AttendanceCreate) : Store × Except ApiError AttRecord :=
  if isValidOid att.employee_id then
    match s.employees.find? (fun e => e.oid == att.employee_id) with
    | none => (s, .error (.notFound att.employee_id))
    | some emp =>
      if att.status == "Present" || att.status == "Absent" then
        let dateStr := att.date.toIso
        match s.attendances.find?
            (fun a => a.employee_id == att.employee_id && a.date == dateStr) with
        | some _ => (s, .error (.duplicateAttendance emp.full_name dateStr))
        | none =>
          let newAtt : AttRecord :=
            ⟨freshId, att.employee_id, dateStr, att.status, now⟩
          let atts2 := s.attendances ++ [newAtt]
          let s2 : Store := { s with attendances := atts2 }
          match atts2.find? (fun a => a.oid == freshId) with
          | some created => (s2, .ok created)
          | none => (s2, .error .internal)
      else (s, .error .invalidStatus)
  else (s, .error .invalidId)

/-- Descending order on created_at, the sort key of GET /api/employees. -/
def byCreatedDesc (a b : Employee) : Prop := b.created_at ≤ a.created_at

instance : DecidableRel byCreatedDesc := fun a b =>
  Nat.decLe b.created_at a.created_at

instance : IsTotal Employee byCreatedDesc :=
  ⟨fun a b => Nat.le_total b.created_at a.created_at⟩

instance : IsTrans Employee byCreatedDesc :=
  ⟨fun _ _ _ h1 h2 => Nat.le_trans h2 h1⟩

/-- Handler GET /api/employees (main.py get_all_employees, lines 67-90):
every employee, sorted by created_at descending. -/
def getAllEmployees (s : Store) : List Employee :=
  List.insertionSort byCreatedDesc s.employees

/-- Descending order on the stored ISO date string, the sort key used by
both attendance list endpoints. -/
def byDateDesc (a b : AttRecord) : Prop := b.date ≤ a.date

instance : DecidableRel byDateDesc := fun a b =>
  (inferInstance : LinearOrder String).decidableLE b.date a.date

instance : IsTotal AttRecord byDateDesc :=
  ⟨fun a b => le_total b.date a.date⟩

instance : IsTrans AttRecord byDateDesc :=
  ⟨fun _ _ _ h1 h2 => le_trans h2 h1⟩

/-- Attendance record as shaped by GET /api/attendance (main.py lines
316-331): the record fields plus employee_name and the nested
employee_details, resolved against the employees collection with the
placeholder values Unknown and N-slash-A when the reference does not
resolve. -/
structure FormattedAtt where
  oid : String
  employee_id : String
  employee_name : String
  emp_employee_id : String
  emp_department : String
  date : String
  status : String
  marked_at : Nat
deriving DecidableEq, Repr

/-- Response shaping of one attendance record in GET /api/attendance:
join against the employees collection by the stored string _id. -/
def formatAtt (s : Store) (r : AttRecord) : FormattedAtt :=
  match s.employees.find? (fun e => e.oid == r.employee_id) with
  | some e =>
      ⟨r.oid, r.employee_id, e.full_name, e.employee_id, e.department,
        r.date, r.status, r.marked_at⟩
  | none =>
      ⟨r.oid, r.employee_id, "Unknown", "N/A", "N/A",
        r.date, r.status, r.marked_at⟩

/-- Handler GET /api/attendance (main.py get_attendance, lines 294-343):
when a date filter is supplied and nonempty (python truthiness of the
optional query string), keep only records whose stored date equals it
exactly; sort by date descending; join each record against the employee
set. -/
def getAttendance (s : Store) (dateFilter : Option String) :
    List FormattedAtt :=
  let records :=
    match dateFilter with
    | some ds =>
        if ds == "" then s.attendances
        else s.attendances.filter (fun r => r.date == ds)
    | none => s.attendances
  (List.insertionSort byDateDesc records).map (formatAtt s)

/-- Attendance record as shaped by GET /api/attendance/employee/{id}
(main.py lines 371-379): date, status and marked_at only. -/
structure AttView where
  oid : String
  date : String
  status : String
  marked_at : Nat
deriving DecidableEq, Repr

/-- Handler GET /api/attendance/employee/{id} (main.py
get_employee_attendance, lines 345-400): reject a malformed identifier,
look the employee up (404 when absent), then return the employee profile
together with that employee's records sorted by date descending;
read-only, so the store is returned unchanged on every path. -/
def getEmployeeAttendance (s : Store) (id : String) :
    Store × Except ApiError (Employee × List AttView) :=
  if isValidOid id then
    match s.employees.find? (fun e => e.oid == id) with
    | none => (s, .error (.notFound id))
    | some emp =>
      let recs := List.insertionSort byDateDesc
        (s.attendances.filter (fun a => a.employee_id == id))
      (s, .ok (emp, recs.map (fun r => ⟨r.oid, r.date, r.status, r.marked_at⟩)))
  else (s, .error .invalidId)

/-- One API request, carrying the nondeterministic environment inputs
(generated ObjectId, current time) where the operation consumes them. -/
inductive Op where
  | add (freshId : String) (now : Nat) (emp : EmployeeCreate)
  | get (id : String)
  | delete (id : String)
  | mark (freshId : String) (now : Nat) (att : AttendanceCreate)
  | listAll
  | listAtt (dateFilter : Option String)
  | listFor (id : String)
deriving Repr

/-- Store transition of one request: the store component of the handler
result (read-only requests leave the store untouched). -/
def applyOp (s : Store) : Op → Store
  | .add freshId now emp => (addEmployee s freshId now emp).1
  | .get _ => s
  | .delete id => (deleteEmployee s id).1
  | .mark freshId now att => (markAttendance s freshId now att).1
  | .listAll => s
  | .listAtt _ => s
  | .listFor _ => s

/-- Store reached by a sequence of requests run from the empty store. -/
def execOps (ops : List Op) : Store :=
  ops.foldl applyOp emptyStore

/-- At most one attendance record per (employee_id, date) pair. -/
def AttUnique (l : List AttRecord) : Prop :=
  l.Pairwise (fun a b => a.employee_id ≠ b.employee_id ∨ a.date ≠ b.date)

/-- Store wellformedness maintained by the store collaborator: the
generated _id values are wellformed and pairwise distinct. -/
def Store.wf (s : Store) : Prop :=
  s.employees.Pairwise (fun a b => a.oid ≠ b.oid) ∧
    ∀ e ∈ s.employees, isValidOid e.oid = true


/-- pydantic v2 pattern constraint on the status field of the attendance
request body (models.py AttendanceBase line 64, anchored pattern
Present-or-Absent): the regex accepts exactly these two strings. -/
def statusPatternOk (s : String) : Bool :=
  s == "Present" || s == "Absent"

/-- Outcome error of the full POST /api/attendance endpoint as a client
observes it: either the pydantic request-body validation rejection
(answered by FastAPI before the handler runs) or a handler-level domain
error. -/
inductive EndpointError where
  | unprocessable
  | api (e : ApiError)
deriving DecidableEq, Repr

/-- HTTP status of an endpoint outcome: FastAPI answers request-body
validation failures with 422 Unprocessable Entity; handler errors keep
the status the handler attached. -/
def EndpointError.httpStatus : EndpointError → Nat
  | .unprocessable => 422
  | .api e => e.httpStatus

/-- POST /api/attendance including request-body parsing: pydantic v2
enforces the status pattern of models.py line 64 and FastAPI rejects a
violating body with 422 before mark_attendance runs; an accepted body is
handled by mark_attendance (whose own in-handler status branch, main.py
line 245, is therefore unreachable through this endpoint). -/
def markAttendanceEndpoint (s : Store) (freshId : String) (now : Nat)
    (att : AttendanceCreate) : Store × Except EndpointError AttRecord :=
  if statusPatternOk att.status then
    match markAttendance s freshId now att with
    | (s2, .ok r) => (s2, .ok r)
    | (s2, .error e) => (s2, .error (.api e))
  else (s, .error .unprocessable)

/-- Sample canonical ObjectId strings and records for concrete witnesses. -/
def oidA : String := "507f1f77bcf86cd799439011"

/-- Second sample ObjectId. -/
def oidB : String := "507f1f77bcf86cd799439012"

/-- Third sample ObjectId. -/
def oidC : String := "507f1f77bcf86cd799439013"

/-- Sample employee creation request. -/
def johnCreate : EmployeeCreate :=
  ⟨"EMP001", "John Doe", "john@example.com", "Engineering"⟩

/-- Sample stored employee. -/
def johnEmp : Employee :=
  ⟨oidA, "EMP001", "John Doe", "john@example.com", "Engineering", 5⟩

/-- Sample store holding one employee and no attendance records. -/
def store1 : Store := ⟨[johnEmp], []⟩

/-- Sample attendance record referencing the sample employee. -/
def attRec1 : AttRecord := ⟨oidB, oidA, "2024-01-10", "Present", 7⟩

/-- Sample store holding one employee and one attendance record. -/
def store2 : Store := ⟨[johnEmp], [attRec1]⟩

theorem addEmployee_attendances (s : Store) (f : String) (n : Nat)
    (emp : EmployeeCreate) :
    ((addEmployee s f n emp).1).attendances = s.attendances := by
  unfold addEmployee
  split
  · rfl
  · split
    · rfl
    · dsimp only
      split <;> rfl

theorem deleteEmployee_att_sublist (s : Store) (id : String) :
    ((deleteEmployee s id).1).attendances.Sublist s.attendances := by
  unfold deleteEmployee
  split
  · split
    · exact List.Sublist.refl _
    · exact List.filter_sublist _
  · exact List.Sublist.refl _

theorem markAttendance_att (s : Store) (f : String) (n : Nat)
    (att : AttendanceCreate) :
    ((markAttendance s f n att).1).attendances = s.attendances ∨
      (((markAttendance s f n att).1).attendances =
        s.attendances ++ [⟨f, att.employee_id, att.date.toIso, att.status, n⟩] ∧
        s.attendances.find? (fun a =>
          a.employee_id == att.employee_id && a.date == att.date.toIso) = none) := by
  unfold markAttendance
  split
  · split
    · exact Or.inl rfl
    · split
      · dsimp only
        split
        · exact Or.inl rfl
        · rename_i hnone
          split <;> exact Or.inr ⟨rfl, hnone⟩
      · exact Or.inl rfl
  · exact Or.inl rfl

theorem attUnique_applyOp (s : Store) (op : Op)
    (h : AttUnique s.attendances) : AttUnique ((applyOp s op).attendances) := by
  cases op with
  | add f n emp =>
      show AttUnique ((addEmployee s f n emp).1).attendances
      rw [addEmployee_attendances]; exact h
  | get id => exact h
  | delete id =>
      exact List.Pairwise.sublist (deleteEmployee_att_sublist s id) h
  | mark f n att =>
      show AttUnique ((markAttendance s f n att).1).attendances
      rcases markAttendance_att s f n att with heq | ⟨heq, hnone⟩
      · rw [heq]; exact h
      · rw [heq]
        unfold AttUnique
        rw [List.pairwise_append]
        refine ⟨h, List.pairwise_singleton _ _, ?_⟩
        intro a ha b hb
        have hb2 : b = ⟨f, att.employee_id, att.date.toIso, att.status, n⟩ :=
          List.mem_singleton.mp hb
        subst hb2
        have := List.find?_eq_none.mp hnone a ha
        simp only [Bool.and_eq_true, beq_iff_eq, not_and] at this
        by_cases he : a.employee_id = att.employee_id
        · exact Or.inr (this he)
        · exact Or.inl he
  | listAll => exact h
  | listAtt d => exact h
  | listFor id => exact h

theorem attUnique_foldl (ops : List Op) (s : Store)
    (h : AttUnique s.attendances) :
    AttUnique ((ops.foldl applyOp s).attendances) := by
  induction ops generalizing s with
  | nil => exact h
  | cons op rest ih => exact ih _ (attUnique_applyOp s op h)

/-- C1: under sequential execution of the API operations starting from the
empty store, every reachable store state has at most one attendance record
per (employee_id, date) pair. -/
theorem claim1_attendance_unique_reachable (ops : List Op) :
    AttUnique ((execOps ops).attendances) :=
  attUnique_foldl ops emptyStore (List.Pairwise.nil)


theorem addEmployee_dupId (s : Store) (f : String) (n : Nat)
    (emp : EmployeeCreate) (e0 : Employee)
    (h : s.employees.find? (fun e => e.employee_id == emp.employee_id) = some e0) :
    addEmployee s f n emp = (s, .error (.duplicateEmployeeId emp.employee_id)) := by
  unfold addEmployee
  rw [h]

theorem addEmployee_dupEmail (s : Store) (f : String) (n : Nat)
    (emp : EmployeeCreate) (e0 : Employee)
    (h1 : s.employees.find? (fun e => e.employee_id == emp.employee_id) = none)
    (h2 : s.employees.find? (fun e => e.email == emp.email) = some e0) :
    addEmployee s f n emp = (s, .error (.duplicateEmail emp.email)) := by
  unfold addEmployee
  rw [h1, h2]

theorem addEmployee_ok (s : Store) (f : String) (n : Nat)
    (emp : EmployeeCreate)
    (h1 : s.employees.find? (fun e => e.employee_id == emp.employee_id) = none)
    (h2 : s.employees.find? (fun e => e.email == emp.email) = none)
    (hfresh : ∀ e ∈ s.employees, e.oid ≠ f) :
    addEmployee s f n emp =
      ({ s with employees := s.employees ++
          [⟨f, emp.employee_id, emp.full_name, emp.email, emp.department, n⟩] },
        .ok ⟨f, emp.employee_id, emp.full_name, emp.email, emp.department, n⟩) := by
  unfold addEmployee
  rw [h1, h2]
  dsimp only
  have hpre : s.employees.find? (fun e => e.oid == f) = none :=
    List.find?_eq_none.mpr (fun e he => by
      simp only [beq_iff_eq]
      exact hfresh e he)
  rw [List.find?_append, hpre, Option.none_or, List.find?_cons]
  simp only [beq_self_eq_true]

theorem getEmployee_invalid (s : Store) (id : String)
    (h : isValidOid id = false) :
    getEmployee s id = (s, .error .invalidId) := by
  unfold getEmployee
  rw [h]
  rfl

theorem getEmployee_notFound (s : Store) (id : String)
    (h : isValidOid id = true)
    (h2 : s.employees.find? (fun e => e.oid == id) = none) :
    getEmployee s id = (s, .error (.notFound id)) := by
  unfold getEmployee
  rw [h, h2]
  rfl

theorem getEmployee_found (s : Store) (id : String) (e : Employee)
    (h : isValidOid id = true)
    (h2 : s.employees.find? (fun e => e.oid == id) = some e) :
    getEmployee s id = (s, .ok e) := by
  unfold getEmployee
  rw [h, h2]
  rfl

theorem deleteEmployee_invalid (s : Store) (id : String)
    (h : isValidOid id = false) :
    deleteEmployee s id = (s, .error .invalidId) := by
  unfold deleteEmployee
  rw [h]
  rfl

theorem deleteEmployee_notFound (s : Store) (id : String)
    (h : isValidOid id = true)
    (h2 : s.employees.find? (fun e => e.oid == id) = none) :
    deleteEmployee s id = (s, .error (.notFound id)) := by
  unfold deleteEmployee
  rw [h, h2]
  rfl

theorem deleteEmployee_found (s : Store) (id : String) (e : Employee)
    (h : isValidOid id = true)
    (h2 : s.employees.find? (fun x => x.oid == id) = some e) :
    deleteEmployee s id =
      (⟨s.employees.eraseP (fun x => x.oid == id),
          s.attendances.filter (fun a => !(a.employee_id == id))⟩,
        .ok (delMsgPre ++ e.full_name ++ delMsgSuf)) := by
  unfold deleteEmployee
  rw [h, h2]
  rfl

theorem markAttendance_invalid (s : Store) (f : String) (n : Nat)
    (att : AttendanceCreate) (h : isValidOid att.employee_id = false) :
    markAttendance s f n att = (s, .error .invalidId) := by
  unfold markAttendance
  rw [h]
  rfl

theorem markAttendance_notFound (s : Store) (f : String) (n : Nat)
    (att : AttendanceCreate)
    (h : isValidOid att.employee_id = true)
    (h2 : s.employees.find? (fun e => e.oid == att.employee_id) = none) :
    markAttendance s f n att = (s, .error (.notFound att.employee_id)) := by
  unfold markAttendance
  rw [h, h2]
  rfl

theorem markAttendance_badStatus (s : Store) (f : String) (n : Nat)
    (att : AttendanceCreate) (e : Employee)
    (h : isValidOid att.employee_id = true)
    (h2 : s.employees.find? (fun x => x.oid == att.employee_id) = some e)
    (h3 : (att.status == "Present" || att.status == "Absent") = false) :
    markAttendance s f n att = (s, .error .invalidStatus) := by
  unfold markAttendance
  rw [h, h2, h3]
  rfl

theorem markAttendance_dup (s : Store) (f : String) (n : Nat)
    (att : AttendanceCreate) (e : Employee) (a0 : AttRecord)
    (h : isValidOid att.employee_id = true)
    (h2 : s.employees.find? (fun x => x.oid == att.employee_id) = some e)
    (h3 : (att.status == "Present" || att.status == "Absent") = true)
    (h4 : s.attendances.find? (fun a =>
        a.employee_id == att.employee_id && a.date == att.date.toIso) = some a0) :
    markAttendance s f n att =
      (s, .error (.duplicateAttendance e.full_name att.date.toIso)) := by
  unfold markAttendance
  rw [h, h2, h3]
  dsimp only
  rw [h4]
  rfl

theorem markAttendance_ok (s : Store) (f : String) (n : Nat)
    (att : AttendanceCreate) (e : Employee)
    (h : isValidOid att.employee_id = true)
    (h2 : s.employees.find? (fun x => x.oid == att.employee_id) = some e)
    (h3 : (att.status == "Present" || att.status == "Absent") = true)
    (h4 : s.attendances.find? (fun a =>
        a.employee_id == att.employee_id && a.date == att.date.toIso) = none)
    (hfresh : ∀ a ∈ s.attendances, a.oid ≠ f) :
    markAttendance s f n att =
      ({ s with attendances := s.attendances ++
          [⟨f, att.employee_id, att.date.toIso, att.status, n⟩] },
        .ok ⟨f, att.employee_id, att.date.toIso, att.status, n⟩) := by
  unfold markAttendance
  rw [h, h2, h3]
  dsimp only
  rw [h4]
  dsimp only
  have hpre : s.attendances.find? (fun a => a.oid == f) = none :=
    List.find?_eq_none.mpr (fun a ha => by
      simp only [beq_iff_eq]
      exact hfresh a ha)
  rw [List.find?_append, hpre, Option.none_or, List.find?_cons]
  simp only [beq_self_eq_true]
  rfl

theorem getEmployeeAttendance_invalid (s : Store) (id : String)
    (h : isValidOid id = false) :
    getEmployeeAttendance s id = (s, .error .invalidId) := by
  unfold getEmployeeAttendance
  rw [h]
  rfl

theorem getEmployeeAttendance_notFound (s : Store) (id : String)
    (h : isValidOid id = true)
    (h2 : s.employees.find? (fun e => e.oid == id) = none) :
    getEmployeeAttendance s id = (s, .error (.notFound id)) := by
  unfold getEmployeeAttendance
  rw [h, h2]
  rfl

theorem find?_append_singleton (l : List α) (a : α) (p : α → Bool)
    (hp : p a = true) : ∃ c, (l ++ [a]).find? p = some c := by
  rw [List.find?_append]
  cases hl : l.find? p with
  | some c => exact ⟨c, rfl⟩
  | none =>
      refine ⟨a, ?_⟩
      rw [Option.none_or, List.find?_cons, hp]

theorem addEmployee_nodup (s : Store) (f : String) (n : Nat)
    (emp : EmployeeCreate)
    (h1 : s.employees.find? (fun e => e.employee_id == emp.employee_id) = none)
    (h2 : s.employees.find? (fun e => e.email == emp.email) = none) :
    ∃ c, addEmployee s f n emp =
      ({ s with employees := s.employees ++
          [⟨f, emp.employee_id, emp.full_name, emp.email, emp.department, n⟩] },
        .ok c) := by
  unfold addEmployee
  rw [h1, h2]
  dsimp only
  obtain ⟨c, hc⟩ := find?_append_singleton s.employees
    (⟨f, emp.employee_id, emp.full_name, emp.email, emp.department, n⟩ : Employee)
    (fun e => e.oid == f) (by simp)
  rw [hc]
  exact ⟨c, rfl⟩

theorem markAttendance_nodup (s : Store) (f : String) (n : Nat)
    (att : AttendanceCreate) (e : Employee)
    (h : isValidOid att.employee_id = true)
    (h2 : s.employees.find? (fun x => x.oid == att.employee_id) = some e)
    (h3 : (att.status == "Present" || att.status == "Absent") = true)
    (h4 : s.attendances.find? (fun a =>
        a.employee_id == att.employee_id && a.date == att.date.toIso) = none) :
    ∃ c, markAttendance s f n att =
      ({ s with attendances := s.attendances ++
          [⟨f, att.employee_id, att.date.toIso, att.status, n⟩] },
        .ok c) := by
  unfold markAttendance
  rw [h, h2, h3]
  dsimp only
  rw [h4]
  dsimp only
  obtain ⟨c, hc⟩ := find?_append_singleton s.attendances
    (⟨f, att.employee_id, att.date.toIso, att.status, n⟩ : AttRecord)
    (fun a => a.oid == f) (by simp)
  rw [hc]
  exact ⟨c, rfl⟩

/-- C2: when the store already holds an employee with the requested
employee_id or with the requested email, Add fails with a duplicate-key
error that names the offending value, maps to HTTP 400, and inserts no
record (the store is returned unchanged), regardless of the other fields
of the candidate. -/
theorem claim2_add_duplicate_rejected (s : Store) (f : String) (n : Nat)
    (emp : EmployeeCreate)
    (hdup : ∃ e ∈ s.employees,
      e.employee_id = emp.employee_id ∨ e.email = emp.email) :
    (addEmployee s f n emp).1 = s ∧
      ∃ err, (addEmployee s f n emp).2 = .error err ∧
        err.httpStatus = 400 ∧
        ((err = .duplicateEmployeeId emp.employee_id ∧
            err.detail = dupIdPre ++ emp.employee_id ++ dupIdSuf) ∨
          (err = .duplicateEmail emp.email ∧
            err.detail = dupEmailPre ++ emp.email ++ dupEmailSuf)) := by
  rcases hfind1 : s.employees.find? (fun e => e.employee_id == emp.employee_id)
    with _ | e1
  · rcases hfind2 : s.employees.find? (fun e => e.email == emp.email) with _ | e2
    · exfalso
      obtain ⟨e, hmem, hor⟩ := hdup
      have hne1 := List.find?_eq_none.mp hfind1 e hmem
      have hne2 := List.find?_eq_none.mp hfind2 e hmem
      simp only [beq_iff_eq] at hne1 hne2
      rcases hor with h | h
      · exact hne1 h
      · exact hne2 h
    · rw [addEmployee_dupEmail s f n emp e2 hfind1 hfind2]
      exact ⟨rfl, .duplicateEmail emp.email, rfl, rfl, Or.inr ⟨rfl, rfl⟩⟩
  · rw [addEmployee_dupId s f n emp e1 hfind1]
    exact ⟨rfl, .duplicateEmployeeId emp.employee_id, rfl, rfl, Or.inl ⟨rfl, rfl⟩⟩

theorem claim2_add_duplicate_rejected_witness :
    (addEmployee store1 oidB 6
        ⟨"EMP001", "Jane Roe", "jane@example.com", "Sales"⟩).1 = store1 ∧
      ∃ err, (addEmployee store1 oidB 6
          ⟨"EMP001", "Jane Roe", "jane@example.com", "Sales"⟩).2 = .error err ∧
        err.httpStatus = 400 ∧
        ((err = .duplicateEmployeeId "EMP001" ∧
            err.detail = dupIdPre ++ "EMP001" ++ dupIdSuf) ∨
          (err = .duplicateEmail "jane@example.com" ∧
            err.detail = dupEmailPre ++ "jane@example.com" ++ dupEmailSuf)) :=
  claim2_add_duplicate_rejected store1 oidB 6
    ⟨"EMP001", "Jane Roe", "jane@example.com", "Sales"⟩
    ⟨johnEmp, by decide, Or.inl (by decide)⟩

/-- C7: ListForEmployee fails with the not-found error (HTTP 404) for a
wellformed identifier matching no employee, and with the
invalid-identifier error (HTTP 400) for a malformed identifier. -/
theorem claim7_list_for_employee_errors (s : Store) (id : String) :
    (isValidOid id = true →
      s.employees.find? (fun e => e.oid == id) = none →
      getEmployeeAttendance s id = (s, .error (.notFound id)) ∧
        (ApiError.notFound id).httpStatus = 404) ∧
    (isValidOid id = false →
      getEmployeeAttendance s id = (s, .error .invalidId) ∧
        ApiError.invalidId.httpStatus = 400) :=
  ⟨fun h h2 => ⟨getEmployeeAttendance_notFound s id h h2, rfl⟩,
    fun h => ⟨getEmployeeAttendance_invalid s id h, rfl⟩⟩

theorem claim7_list_for_employee_errors_witness :
    (getEmployeeAttendance store1 oidC = (store1, .error (.notFound oidC)) ∧
      (ApiError.notFound oidC).httpStatus = 404) ∧
    (getEmployeeAttendance store1 "zz" = (store1, .error .invalidId) ∧
      ApiError.invalidId.httpStatus = 400) :=
  ⟨(claim7_list_for_employee_errors store1 oidC).1 (by decide) (by decide),
    (claim7_list_for_employee_errors store1 "zz").2 (by decide)⟩

/-- C9: whenever Add, Get, Delete, Mark or ListForEmployee fails with a
domain error (invalid identifier, not found, validation, duplicate key or
duplicate record), the store is exactly what it was before the call — no
record is inserted or deleted on any such error path.  (The internal 500
catch-all is excluded for Add and Mark, whose response shaping runs after
the insert.) -/
theorem claim9_error_paths_preserve_store (s : Store) :
    (∀ f n emp err, (addEmployee s f n emp).2 = .error err →
      err.isDomain = true → (addEmployee s f n emp).1 = s) ∧
    (∀ id err, (getEmployee s id).2 = .error err → (getEmployee s id).1 = s) ∧
    (∀ id err, (deleteEmployee s id).2 = .error err →
      (deleteEmployee s id).1 = s) ∧
    (∀ f n att err, (markAttendance s f n att).2 = .error err →
      err.isDomain = true → (markAttendance s f n att).1 = s) ∧
    (∀ id err, (getEmployeeAttendance s id).2 = .error err →
      (getEmployeeAttendance s id).1 = s) := by
  refine ⟨?_, ?_, ?_, ?_, ?_⟩
  · intro f n emp err h _
    rcases hf1 : s.employees.find? (fun e => e.employee_id == emp.employee_id)
      with _ | e1
    · rcases hf2 : s.employees.find? (fun e => e.email == emp.email) with _ | e2
      · obtain ⟨c, hc⟩ := addEmployee_nodup s f n emp hf1 hf2
        rw [hc] at h
        exact absurd h (by simp)
      · rw [addEmployee_dupEmail s f n emp e2 hf1 hf2]
    · rw [addEmployee_dupId s f n emp e1 hf1]
  · intro id err h
    rcases hv : isValidOid id with _ | _
    · rw [getEmployee_invalid s id hv]
    · rcases hf : s.employees.find? (fun e => e.oid == id) with _ | e
      · rw [getEmployee_notFound s id hv hf]
      · rw [getEmployee_found s id e hv hf]
  · intro id err h
    rcases hv : isValidOid id with _ | _
    · rw [deleteEmployee_invalid s id hv]
    · rcases hf : s.employees.find? (fun e => e.oid == id) with _ | e
      · rw [deleteEmployee_notFound s id hv hf]
      · rw [deleteEmployee_found s id e hv hf] at h
        exact absurd h (by simp)
  · intro f n att err h _
    rcases hv : isValidOid att.employee_id with _ | _
    · rw [markAttendance_invalid s f n att hv]
    · rcases hf : s.employees.find? (fun x => x.oid == att.employee_id) with _ | e
      · rw [markAttendance_notFound s f n att hv hf]
      · rcases hs : (att.status == "Present" || att.status == "Absent") with _ | _
        · rw [markAttendance_badStatus s f n att e hv hf hs]
        · rcases hd : s.attendances.find? (fun a =>
              a.employee_id == att.employee_id && a.date == att.date.toIso)
            with _ | a0
          · obtain ⟨c, hc⟩ := markAttendance_nodup s f n att e hv hf hs hd
            rw [hc] at h
            exact absurd h (by simp)
          · rw [markAttendance_dup s f n att e a0 hv hf hs hd]
  · intro id err h
    rcases hv : isValidOid id with _ | _
    · rw [getEmployeeAttendance_invalid s id hv]
    · rcases hf : s.employees.find? (fun e => e.oid == id) with _ | e
      · rw [getEmployeeAttendance_notFound s id hv hf]
      · unfold getEmployeeAttendance
        rw [hv, hf]
        rfl

theorem claim9_error_paths_preserve_store_witness :
    (deleteEmployee emptyStore oidC).1 = emptyStore :=
  (claim9_error_paths_preserve_store emptyStore).2.2.1 oidC
    (.notFound oidC) rfl

/-- C3: for a valid employee input whose employee_id and email are not
already present, Add succeeds; the persisted record equals the input on
employee_id, full_name, email and department, and carries the generated
id and the creation timestamp; a subsequent Get with the returned id
returns exactly that record. -/
theorem claim3_add_get_roundtrip (s : Store) (f : String) (n : Nat)
    (emp : EmployeeCreate)
    (hvalid : emp.valid = true)
    (hfid : isValidOid f = true)
    (hfresh : ∀ e ∈ s.employees, e.oid ≠ f)
    (hnoid : ∀ e ∈ s.employees, e.employee_id ≠ emp.employee_id)
    (hnomail : ∀ e ∈ s.employees, e.email ≠ emp.email) :
    ∃ rec : Employee,
      (addEmployee s f n emp).2 = .ok rec ∧
      rec.employee_id = emp.employee_id ∧ rec.full_name = emp.full_name ∧
      rec.email = emp.email ∧ rec.department = emp.department ∧
      rec.oid = f ∧ rec.created_at = n ∧
      getEmployee (addEmployee s f n emp).1 f =
        ((addEmployee s f n emp).1, .ok rec) := by
  have h1 : s.employees.find? (fun e => e.employee_id == emp.employee_id) = none :=
    List.find?_eq_none.mpr (fun e he => by
      simp only [beq_iff_eq]
      exact hnoid e he)
  have h2 : s.employees.find? (fun e => e.email == emp.email) = none :=
    List.find?_eq_none.mpr (fun e he => by
      simp only [beq_iff_eq]
      exact hnomail e he)
  rw [addEmployee_ok s f n emp h1 h2 hfresh]
  refine ⟨⟨f, emp.employee_id, emp.full_name, emp.email, emp.department, n⟩,
    rfl, rfl, rfl, rfl, rfl, rfl, rfl, ?_⟩
  have hpre : s.employees.find? (fun e => e.oid == f) = none :=
    List.find?_eq_none.mpr (fun e he => by
      simp only [beq_iff_eq]
      exact hfresh e he)
  refine getEmployee_found _ f _ hfid ?_
  rw [List.find?_append, hpre, Option.none_or, List.find?_cons]
  simp only [beq_self_eq_true]

theorem claim3_add_get_roundtrip_witness :
    ∃ rec : Employee,
      (addEmployee emptyStore oidA 5 johnCreate).2 = .ok rec ∧
      rec.employee_id = johnCreate.employee_id ∧
      rec.full_name = johnCreate.full_name ∧
      rec.email = johnCreate.email ∧ rec.department = johnCreate.department ∧
      rec.oid = oidA ∧ rec.created_at = 5 ∧
      getEmployee (addEmployee emptyStore oidA 5 johnCreate).1 oidA =
        ((addEmployee emptyStore oidA 5 johnCreate).1, .ok rec) :=
  claim3_add_get_roundtrip emptyStore oidA 5 johnCreate
    (by decide) (by decide) (by decide) (by decide) (by decide)

/-- C10: deleting an existing employee leaves every employee with a
different id, and every attendance record referencing a different id,
untouched: membership in the respective collections is unchanged for
them. -/
theorem claim10_delete_frame (s : Store) (e : Employee)
    (hmem : e ∈ s.employees) :
    (∀ e2 : Employee, e2.oid ≠ e.oid →
      (e2 ∈ ((deleteEmployee s e.oid).1).employees ↔ e2 ∈ s.employees)) ∧
    (∀ a : AttRecord, a.employee_id ≠ e.oid →
      (a ∈ ((deleteEmployee s e.oid).1).attendances ↔ a ∈ s.attendances)) := by
  rcases hv : isValidOid e.oid with _ | _
  · rw [deleteEmployee_invalid s e.oid hv]
    exact ⟨fun _ _ => Iff.rfl, fun _ _ => Iff.rfl⟩
  · rcases hf : s.employees.find? (fun x => x.oid == e.oid) with _ | e0
    · rw [deleteEmployee_notFound s e.oid hv hf]
      exact ⟨fun _ _ => Iff.rfl, fun _ _ => Iff.rfl⟩
    · rw [deleteEmployee_found s e.oid e0 hv hf]
      constructor
      · intro e2 hne
        exact List.mem_eraseP_of_neg (by simp only [beq_iff_eq]; exact hne)
      · intro a hne
        simp only [List.mem_filter, Bool.not_eq_eq_eq_not, Bool.not_true,
          beq_eq_false_iff_ne, ne_eq]
        constructor
        · exact fun h => h.1
        · exact fun h => ⟨h, by simpa using hne⟩

theorem claim10_delete_frame_witness :
    (∀ e2 : Employee, e2.oid ≠ johnEmp.oid →
      (e2 ∈ ((deleteEmployee store1 johnEmp.oid).1).employees ↔
        e2 ∈ store1.employees)) ∧
    (∀ a : AttRecord, a.employee_id ≠ johnEmp.oid →
      (a ∈ ((deleteEmployee store1 johnEmp.oid).1).attendances ↔
        a ∈ store1.attendances)) :=
  claim10_delete_frame store1 johnEmp (by decide)

theorem find?_oid_of_mem (l : List Employee) (e : Employee)
    (hdist : l.Pairwise (fun a b => a.oid ≠ b.oid)) (hmem : e ∈ l) :
    l.find? (fun x => x.oid == e.oid) = some e := by
  induction l with
  | nil => cases hmem
  | cons h tl ih =>
    rw [List.pairwise_cons] at hdist
    rcases List.mem_cons.mp hmem with rfl | hmem2
    · rw [List.find?_cons]
      simp only [beq_self_eq_true]
    · have hne : (h.oid == e.oid) = false := by
        simp only [beq_eq_false_iff_ne, ne_eq]
        exact hdist.1 e hmem2
      rw [List.find?_cons, hne]
      exact ih hdist.2 hmem2

theorem eraseP_oid_all_ne (l : List Employee) (t : String)
    (hdist : l.Pairwise (fun a b => a.oid ≠ b.oid))
    (hex : ∃ x ∈ l, x.oid = t) :
    ∀ y ∈ l.eraseP (fun x => x.oid == t), y.oid ≠ t := by
  induction l with
  | nil => simp
  | cons h tl ih =>
    rw [List.pairwise_cons] at hdist
    by_cases hh : h.oid = t
    · have hpt : (h.oid == t) = true := by simp [hh]
      rw [List.eraseP_cons, hpt]
      intro y hy
      have := hdist.1 y hy
      rw [hh] at this
      exact fun h2 => this h2.symm
    · have hpt : (h.oid == t) = false := by simp [hh]
      rw [List.eraseP_cons, hpt]
      intro y hy
      rcases List.mem_cons.mp hy with rfl | hy2
      · exact hh
      · obtain ⟨x, hx, hxt⟩ := hex
        rcases List.mem_cons.mp hx with rfl | hx2
        · exact absurd hxt hh
        · exact ih hdist.2 ⟨x, hx2, hxt⟩ y hy2

theorem formatAtt_employee_id (s : Store) (r : AttRecord) :
    (formatAtt s r).employee_id = r.employee_id := by
  unfold formatAtt
  split <;> rfl

theorem formatAtt_date (s : Store) (r : AttRecord) :
    (formatAtt s r).date = r.date := by
  unfold formatAtt
  split <;> rfl

/-- C4: deleting an existing employee (in a wellformed store, where the
generated ids are valid and pairwise distinct) answers with the success
message containing the display name of the deleted employee, removes the
employee record, removes every attendance record referencing that id, and
afterwards the employee appears in no List result, no attendance List
record references it, and ListForEmployee on it fails with not-found. -/
theorem claim4_delete_cascades (s : Store) (e : Employee)
    (hwf : s.wf) (hmem : e ∈ s.employees) :
    ((deleteEmployee s e.oid).2 =
        .ok (delMsgPre ++ e.full_name ++ delMsgSuf) ∧
      ∃ p q, delMsgPre ++ e.full_name ++ delMsgSuf = p ++ e.full_name ++ q) ∧
    (∀ e2 ∈ ((deleteEmployee s e.oid).1).employees, e2.oid ≠ e.oid) ∧
    (∀ a ∈ ((deleteEmployee s e.oid).1).attendances, a.employee_id ≠ e.oid) ∧
    (∀ e2 ∈ getAllEmployees (deleteEmployee s e.oid).1, e2.oid ≠ e.oid) ∧
    (∀ fa ∈ getAttendance (deleteEmployee s e.oid).1 none,
      fa.employee_id ≠ e.oid) ∧
    getEmployeeAttendance (deleteEmployee s e.oid).1 e.oid =
      ((deleteEmployee s e.oid).1, .error (.notFound e.oid)) := by
  obtain ⟨hdist, hvalid⟩ := hwf
  have hv : isValidOid e.oid = true := hvalid e hmem
  have hf : s.employees.find? (fun x => x.oid == e.oid) = some e :=
    find?_oid_of_mem s.employees e hdist hmem
  rw [deleteEmployee_found s e.oid e hv hf]
  have hemps : ∀ e2 ∈ s.employees.eraseP (fun x => x.oid == e.oid),
      e2.oid ≠ e.oid :=
    eraseP_oid_all_ne s.employees e.oid hdist ⟨e, hmem, rfl⟩
  have hatts : ∀ a ∈ s.attendances.filter (fun a => !(a.employee_id == e.oid)),
      a.employee_id ≠ e.oid := by
    intro a ha
    have := (List.mem_filter.mp ha).2
    simpa using this
  refine ⟨⟨rfl, delMsgPre, delMsgSuf, rfl⟩, hemps, hatts, ?_, ?_, ?_⟩
  · intro e2 h2
    exact hemps e2 ((List.perm_insertionSort byCreatedDesc _).mem_iff.mp h2)
  · intro fa hfa
    unfold getAttendance at hfa
    obtain ⟨r, hr, hfr⟩ := List.mem_map.mp hfa
    have hr2 := (List.perm_insertionSort byDateDesc _).mem_iff.mp hr
    rw [← hfr, formatAtt_employee_id]
    exact hatts r hr2
  · refine getEmployeeAttendance_notFound _ e.oid hv ?_
    exact List.find?_eq_none.mpr (fun e2 h2 => by
      simp only [beq_iff_eq]
      exact hemps e2 h2)

theorem claim4_delete_cascades_witness :
    (((deleteEmployee store1 johnEmp.oid).2 =
        .ok (delMsgPre ++ johnEmp.full_name ++ delMsgSuf) ∧
      ∃ p q, delMsgPre ++ johnEmp.full_name ++ delMsgSuf =
        p ++ johnEmp.full_name ++ q) ∧
    (∀ e2 ∈ ((deleteEmployee store1 johnEmp.oid).1).employees,
      e2.oid ≠ johnEmp.oid) ∧
    (∀ a ∈ ((deleteEmployee store1 johnEmp.oid).1).attendances,
      a.employee_id ≠ johnEmp.oid) ∧
    (∀ e2 ∈ getAllEmployees (deleteEmployee store1 johnEmp.oid).1,
      e2.oid ≠ johnEmp.oid) ∧
    (∀ fa ∈ getAttendance (deleteEmployee store1 johnEmp.oid).1 none,
      fa.employee_id ≠ johnEmp.oid) ∧
    getEmployeeAttendance (deleteEmployee store1 johnEmp.oid).1 johnEmp.oid =
      ((deleteEmployee store1 johnEmp.oid).1,
        .error (.notFound johnEmp.oid))) :=
  claim4_delete_cascades store1 johnEmp
    ⟨by decide, by decide⟩ (by decide)

theorem toIso_length (d : Date) : 2 ≤ (Date.toIso d).length := by
  unfold Date.toIso
  rw [String.length_append, String.length_append, String.length_append,
    String.length_append]
  have h1 : ("-").length = 1 := rfl
  rw [h1]
  omega

theorem toIso_beq_empty (d : Date) : (Date.toIso d == "") = false := by
  rw [beq_eq_false_iff_ne]
  intro h
  have := toIso_length d
  rw [h] at this
  exact absurd this (by decide)

theorem getAttendance_some (s : Store) (ds : String)
    (h : (ds == "") = false) :
    getAttendance s (some ds) =
      (List.insertionSort byDateDesc
        (s.attendances.filter (fun r => r.date == ds))).map (formatAtt s) := by
  unfold getAttendance
  dsimp only
  rw [h]
  rfl

theorem getAttendance_none (s : Store) :
    getAttendance s none =
      (List.insertionSort byDateDesc s.attendances).map (formatAtt s) := rfl

/-- C8: with a date filter (the ISO normalization of a supplied calendar
date), attendance List returns exactly the shaped records whose stored
date equals that normalized string; with no filter it returns all records
(as a permutation of the shaped attendance collection) ordered by date
descending. -/
theorem claim8_attendance_list_filter (s : Store) (d : Date) :
    (∀ fa, fa ∈ getAttendance s (some (Date.toIso d)) ↔
      ∃ r ∈ s.attendances, r.date = Date.toIso d ∧ fa = formatAtt s r) ∧
    (getAttendance s none).Perm (s.attendances.map (formatAtt s)) ∧
    (getAttendance s none).Pairwise (fun a b => b.date ≤ a.date) := by
  refine ⟨?_, ?_, ?_⟩
  · intro fa
    rw [getAttendance_some s (Date.toIso d) (toIso_beq_empty d)]
    rw [List.mem_map]
    constructor
    · rintro ⟨r, hr, rfl⟩
      have hr2 := (List.perm_insertionSort byDateDesc _).mem_iff.mp hr
      obtain ⟨hmem, hp⟩ := List.mem_filter.mp hr2
      exact ⟨r, hmem, beq_iff_eq.mp hp, rfl⟩
    · rintro ⟨r, hmem, hdate, rfl⟩
      refine ⟨r, ?_, rfl⟩
      refine (List.perm_insertionSort byDateDesc _).mem_iff.mpr ?_
      exact List.mem_filter.mpr ⟨hmem, by simp [hdate]⟩
  · rw [getAttendance_none]
    exact (List.perm_insertionSort byDateDesc s.attendances).map (formatAtt s)
  · rw [getAttendance_none]
    refine List.Pairwise.map (formatAtt s) ?_
      (List.sorted_insertionSort byDateDesc s.attendances)
    intro a b hab
    rw [formatAtt_date, formatAtt_date]
    exact hab

theorem claim1_attendance_unique_reachable_witness :
    AttUnique ((execOps [.add oidA 5 johnCreate,
      .mark oidB 7 ⟨oidA, ⟨2024, 1, 10⟩, "Present"⟩]).attendances) :=
  claim1_attendance_unique_reachable
    [.add oidA 5 johnCreate, .mark oidB 7 ⟨oidA, ⟨2024, 1, 10⟩, "Present"⟩]

theorem claim8_attendance_list_filter_witness :
    (∀ fa, fa ∈ getAttendance store2 (some (Date.toIso ⟨2024, 1, 10⟩)) ↔
      ∃ r ∈ store2.attendances, r.date = Date.toIso ⟨2024, 1, 10⟩ ∧
        fa = formatAtt store2 r) ∧
    (getAttendance store2 none).Perm
      (store2.attendances.map (formatAtt store2)) ∧
    (getAttendance store2 none).Pairwise (fun a b => b.date ≤ a.date) :=
  claim8_attendance_list_filter store2 ⟨2024, 1, 10⟩

theorem markAttendanceEndpoint_badStatus (s : Store) (f : String) (n : Nat)
    (att : AttendanceCreate) (h : statusPatternOk att.status = false) :
    markAttendanceEndpoint s f n att = (s, .error .unprocessable) := by
  unfold markAttendanceEndpoint
  rw [h]
  rfl

/-- C5 counterexample: at a request with a wellformed employee_id
resolving to the stored employee, a valid date, and the status Late, the
endpoint answers the pydantic 422 request-body rejection, not the claimed
ValidationError with HTTP 400 — the in-handler 400 branch is unreachable
through the endpoint. -/
theorem claim5_counterexample_status_422 :
    markAttendanceEndpoint store1 oidB 7 ⟨oidA, ⟨2024, 1, 10⟩, "Late"⟩ =
      (store1, .error .unprocessable) ∧
    EndpointError.unprocessable.httpStatus = 422 ∧
    EndpointError.unprocessable.httpStatus ≠ 400 :=
  ⟨rfl, rfl, by decide⟩

/-- C5 (amended): for a Mark request whose employee_id is wellformed and
resolves to an existing employee and whose date is a valid calendar
date, a status outside Present/Absent is rejected by pydantic v2
request-body validation with HTTP 422 before mark_attendance runs, and
no record is inserted (the store is returned unchanged). -/
theorem claim5_mark_invalid_status_parse (s : Store) (f : String) (n : Nat)
    (att : AttendanceCreate) (e : Employee)
    (hid : isValidOid att.employee_id = true)
    (hemp : s.employees.find? (fun x => x.oid == att.employee_id) = some e)
    (hdate : att.date.valid = true)
    (hstat : att.status ≠ "Present" ∧ att.status ≠ "Absent") :
    markAttendanceEndpoint s f n att = (s, .error .unprocessable) ∧
      EndpointError.unprocessable.httpStatus = 422 := by
  have hpat : statusPatternOk att.status = false := by
    simp only [statusPatternOk, Bool.or_eq_false_iff, beq_eq_false_iff_ne]
    exact hstat
  exact ⟨markAttendanceEndpoint_badStatus s f n att hpat, rfl⟩

theorem claim5_mark_invalid_status_parse_witness :
    markAttendanceEndpoint store1 oidB 7 ⟨oidA, ⟨2024, 1, 10⟩, "Absnt"⟩ =
      (store1, .error .unprocessable) ∧
      EndpointError.unprocessable.httpStatus = 422 :=
  claim5_mark_invalid_status_parse store1 oidB 7 ⟨oidA, ⟨2024, 1, 10⟩, "Absnt"⟩
    johnEmp (by decide) (by decide) (by decide) (by decide)

/-- C6 counterexample: a request whose employee_id is malformed and whose
status is also invalid is answered with the 422 status-pattern rejection,
not with the invalid-identifier error the claim requires — the status
gate runs first, at request parsing. -/
theorem claim6_counterexample_parse_first :
    markAttendanceEndpoint store1 oidB 7 ⟨"not-an-oid", ⟨2024, 1, 10⟩, "Late"⟩ =
      (store1, .error .unprocessable) ∧
    EndpointError.unprocessable ≠ .api .invalidId :=
  ⟨rfl, by decide⟩

/-- C6 (amended): the checks of the Mark endpoint run in the order:
status pattern at request parsing (fail 422), then identifier
wellformedness (fail InvalidIdentifier), then employee existence (fail
NotFound), then the duplicate (employee_id, date) lookup (fail
DuplicateRecord).  In particular the first conjunct applies to every
request with an invalid status, whatever its employee_id, so a request
with a malformed identifier and an invalid status reports the 422
status-pattern rejection, not InvalidIdentifier. -/
theorem claim6_mark_check_order_gate (s : Store) (f : String) (n : Nat)
    (att : AttendanceCreate) :
    (statusPatternOk att.status = false →
      markAttendanceEndpoint s f n att = (s, .error .unprocessable)) ∧
    (statusPatternOk att.status = true →
      isValidOid att.employee_id = false →
      markAttendanceEndpoint s f n att = (s, .error (.api .invalidId))) ∧
    (statusPatternOk att.status = true →
      isValidOid att.employee_id = true →
      s.employees.find? (fun x => x.oid == att.employee_id) = none →
      markAttendanceEndpoint s f n att =
        (s, .error (.api (.notFound att.employee_id)))) ∧
    (∀ e a0, statusPatternOk att.status = true →
      isValidOid att.employee_id = true →
      s.employees.find? (fun x => x.oid == att.employee_id) = some e →
      s.attendances.find? (fun a => a.employee_id == att.employee_id &&
        a.date == att.date.toIso) = some a0 →
      markAttendanceEndpoint s f n att =
        (s, .error (.api (.duplicateAttendance e.full_name att.date.toIso)))) := by
  refine ⟨?_, ?_, ?_, ?_⟩
  · exact markAttendanceEndpoint_badStatus s f n att
  · intro hpat hv
    unfold markAttendanceEndpoint
    rw [hpat]
    rw [markAttendance_invalid s f n att hv]
    rfl
  · intro hpat hv hnone
    unfold markAttendanceEndpoint
    rw [hpat]
    rw [markAttendance_notFound s f n att hv hnone]
    rfl
  · intro e a0 hpat hv hsome hdup
    unfold markAttendanceEndpoint
    rw [hpat]
    rw [markAttendance_dup s f n att e a0 hv hsome hpat hdup]
    rfl

theorem claim6_mark_check_order_gate_witness :
    markAttendanceEndpoint store1 oidB 7
        ⟨"not-an-oid", ⟨2024, 1, 10⟩, "Present"⟩ =
      (store1, .error (.api .invalidId)) :=
  (claim6_mark_check_order_gate store1 oidB 7
    ⟨"not-an-oid", ⟨2024, 1, 10⟩, "Present"⟩).2.1 (by decide) (by decide)

end HRMS
